import Mathlib

/-!
Shallow embedding of the transit network-construction and spatial-filtering
pipeline: the network builder of `gtfs/build_network.py`
(`build_aston_network`) and the bounding-box filter of `server.py`
(`filter_network_by_bbox`).

Conventions of the embedding:
* feed tables are lists of typed rows in their original row order;
* raw join-key cells are a `Val` (text or numeric), and Python `str(x)` /
  `.astype(str)` is `Val.toStr`;
* float coordinates are rationals; the float-valued `haversine_km` routine
  (trigonometry over machine floats, which has no exact computable
  embedding) is passed to the builder as an explicit function argument
  `hav`, so every theorem below holds for every value of that function and
  in particular for the haversine distance the code computes;
* a coordinate cell of the filter's input network is `Option ℚ`: `some q`
  when Python `float(x)` succeeds with value `q`, `none` when it raises.
-/

/-- A raw table cell used as a join key: a feed column may hold text or
numeric ids, and the code canonicalizes both with `str`. -/
inductive Val where
  | vs (v : String)
  | vn (v : Nat)
deriving DecidableEq

/-- Python `str(x)` / `.astype(str)` on a cell value. -/
def Val.toStr : Val → String
  | .vs v => v
  | .vn v => toString v

/-- A bounding box `(minLat, minLng, maxLat, maxLng)`. -/
structure BBox where
  minLat : ℚ
  minLng : ℚ
  maxLat : ℚ
  maxLng : ℚ
deriving DecidableEq

/-- Inclusive bounding-box membership test on a `(lat, lng)` point, as in
`build_network.py` lines 47-50 and `server.py` lines 130 and 153. -/
def inBBox (b : BBox) (lat lng : ℚ) : Bool :=
  decide (b.minLat ≤ lat ∧ lat ≤ b.maxLat ∧ b.minLng ≤ lng ∧ lng ≤ b.maxLng)

/-- Fixed region center of `build_network.py` (`ASTON_CENTER`). -/
def ASTON_CENTER : ℚ × ℚ := (52.492, -1.890)

/-- A row of the `stops` feed table (columns the builder reads). The builder
assumes clean numeric coordinates (coercion is fatal otherwise), so
`stop_lat`/`stop_lon` are plain rationals here. -/
structure StopRow where
  stop_id : Val
  stop_name : String
  stop_lat : ℚ
  stop_lon : ℚ
deriving DecidableEq

/-- A row of the `routes` feed table. -/
structure RouteRow where
  route_id : Val
  route_short_name : String
  route_long_name : String
  route_color : String
deriving DecidableEq

/-- A row of the `trips` feed table; `shape_id` is `none` when the column is
missing or the cell is NA (the `pd.isna` check in the source). -/
structure TripRow where
  trip_id : Val
  route_id : Val
  shape_id : Option Val
deriving DecidableEq

/-- A row of the `stop_times` feed table; `stop_sequence` after
`.astype(int)`. -/
structure StopTimeRow where
  trip_id : Val
  stop_id : Val
  stop_sequence : Nat
deriving DecidableEq

/-- A row of the `shapes` feed table; `shape_pt_sequence` after
`.astype(int)`. -/
structure ShapeRow where
  shape_id : Val
  shape_pt_sequence : Nat
  shape_pt_lat : ℚ
  shape_pt_lon : ℚ
deriving DecidableEq

/-- An output stop of the builder (`out_stops` entries). -/
structure Stop where
  id : String
  name : String
  lat : ℚ
  lng : ℚ
deriving DecidableEq

/-- An output route of the builder (`out_routes` entries). -/
structure BRoute where
  id : String
  shortName : String
  longName : String
  color : String
  stopIds : List String
  shape : List (ℚ × ℚ)
  headwayMins : Option ℚ
deriving DecidableEq

/-- The builder's `meta` object. -/
structure BMeta where
  source : String
  bufferMeters : ℕ
  stopsReturned : ℕ
  routesReturned : ℕ
deriving DecidableEq

/-- The builder's output network. -/
structure BNetwork where
  stops : List Stop
  routes : List BRoute
  meta : BMeta
deriving DecidableEq

/-- Lines 41-42 of `build_network.py`: `stop_id_set` is computed from
`stops_near` BEFORE the near filter reassigns `stops_near`, so it holds the
string ids of ALL stops of the feed, not of the near-set. -/
def stopIdSet (stops : List StopRow) : List String :=
  stops.map (fun s => s.stop_id.toStr)

/-- Lines 45-56 of `build_network.py`: the near-set of stops, by inclusive
bbox test when a bbox is supplied, else by distance from `ASTON_CENTER` at
most `buffer_meters / 1000` kilometers (`hav` is the float haversine). -/
def stopsNear (hav : ℚ × ℚ → ℚ × ℚ → ℚ) (buffer_meters : ℕ) (bbox : Option BBox)
    (stops : List StopRow) : List StopRow :=
  match bbox with
  | some b => stops.filter (fun s => inBBox b s.stop_lat s.stop_lon)
  | none => stops.filter (fun s =>
      decide (hav (s.stop_lat, s.stop_lon) ASTON_CENTER ≤ (buffer_meters : ℚ) / 1000))

/-- Lines 59-62 of `build_network.py`: trip ids of stop-time rows whose
(string) `stop_id` is in `stop_id_set`. -/
def candidateTripIds (stops : List StopRow) (stop_times : List StopTimeRow) : List String :=
  (stop_times.filter (fun st => (stopIdSet stops).contains st.stop_id.toStr)).map
    (fun st => st.trip_id.toStr)

/-- Lines 64-66 of `build_network.py`: the candidate trips, in the original
row order of the `trips` table. -/
def trips2 (stops : List StopRow) (trips : List TripRow)
    (stop_times : List StopTimeRow) : List TripRow :=
  trips.filter (fun t => (candidateTripIds stops stop_times).contains t.trip_id.toStr)

/-- Lines 71-75 of `build_network.py`: `route_to_trip[rid]` is the first
candidate-trip row for `rid` (pandas `groupby` keeps the within-group row
order, and `.agg(lambda s: s.iloc[0])` takes the first element). -/
def routeToTrip (ts : List TripRow) (rid : String) : Option String :=
  (ts.find? (fun t => t.route_id.toStr == rid)).map (fun t => t.trip_id.toStr)

/-- Lines 78-86 of `build_network.py`: the ordered point list of one shape,
rows of that `shape_id` sorted (stably) by `shape_pt_sequence` ascending. -/
def shapePoints (shapes : List ShapeRow) (sid : String) : List (ℚ × ℚ) :=
  (((shapes.filter (fun sh => sh.shape_id.toStr == sid)).insertionSort
      (fun a b => a.shape_pt_sequence ≤ b.shape_pt_sequence)).map
    (fun sh => (sh.shape_pt_lat, sh.shape_pt_lon)))

/-- Lines 101-103 of `build_network.py`: all stop-time rows of one trip,
taken from the entire `stop_times` table and sorted (stably) by
`stop_sequence` ascending as integers. -/
def sortedTripStopTimes (stop_times : List StopTimeRow) (tid : String) : List StopTimeRow :=
  (stop_times.filter (fun st => st.trip_id.toStr == tid)).insertionSort
    (fun a b => a.stop_sequence ≤ b.stop_sequence)

/-- Line 104 of `build_network.py`: the ordered stop-id sequence of one
trip, canonicalized to strings. -/
def tripStopIds (stop_times : List StopTimeRow) (tid : String) : List String :=
  (sortedTripStopTimes stop_times tid).map (fun st => st.stop_id.toStr)

/-- Lines 93-126 of `build_network.py`: the body of the route loop for one
`routes` row; `none` when the loop hits a `continue`. -/
def buildRoute (stops : List StopRow) (ts2 : List TripRow)
    (stop_times : List StopTimeRow) (shapes : List ShapeRow) (r : RouteRow) : Option BRoute :=
  let rid := r.route_id.toStr
  match routeToTrip ts2 rid with
  | none => none
  | some tid =>
    let stop_ids := tripStopIds stop_times tid
    if stop_ids.any (fun sid => (stopIdSet stops).contains sid) then
      let sid? : Option String :=
        match ts2.find? (fun t => t.trip_id.toStr == tid) with
        | some t => t.shape_id.map Val.toStr
        | none => none
      let shape : List (ℚ × ℚ) :=
        match sid? with
        | some sid => shapePoints shapes sid
        | none => []
      some { id := rid
           , shortName := r.route_short_name
           , longName := r.route_long_name
           , color := if r.route_color = "" then "2E7D32" else r.route_color
           , stopIds := stop_ids
           , shape := shape
           , headwayMins := none }
    else none

/-- The network builder, `build_aston_network` of `build_network.py`. -/
def build_aston_network (stops : List StopRow) (routes : List RouteRow)
    (trips : List TripRow) (stop_times : List StopTimeRow) (shapes : List ShapeRow)
    (hav : ℚ × ℚ → ℚ × ℚ → ℚ) (buffer_meters : ℕ) (bbox : Option BBox) : BNetwork :=
  let near := stopsNear hav buffer_meters bbox stops
  let ts2 := trips2 stops trips stop_times
  let out_routes := routes.filterMap (buildRoute stops ts2 stop_times shapes)
  let out_stops := near.map (fun s =>
    { id := s.stop_id.toStr, name := s.stop_name, lat := s.stop_lat, lng := s.stop_lon : Stop })
  { stops := out_stops
  , routes := out_routes
  , meta := { source := "tfwm-gtfs"
            , bufferMeters := buffer_meters
            , stopsReturned := out_stops.length
            , routesReturned := out_routes.length } }

/-- A stop record of the filter's input network: the filter reads `id`,
`lat`, `lng` and passes the record through unchanged; a coordinate is `none`
when `float(x)` would raise. -/
structure FStop where
  id : Val
  name : String
  lat : Option ℚ
  lng : Option ℚ
deriving DecidableEq

/-- A route record of the filter's input network: the fields the builder
emits; `stopIds` entries are raw cells and a shape point's coordinate is
`none` when `float` would raise on it. -/
structure FRoute where
  id : String
  shortName : String
  longName : String
  color : String
  stopIds : List Val
  shape : List (Option ℚ × Option ℚ)
  headwayMins : Option ℚ
deriving DecidableEq

/-- The `filter` sub-object the filter writes into `meta` (its `type` key is
the constant `"bbox"`). -/
structure FilterMeta where
  bbox : BBox
  minStopsInArea : ℕ
  clipShapes : Bool
deriving DecidableEq

/-- The `meta` mapping of a filter-stage network: the distinguished
`filter` key (overwritten by `meta.update`), and the remaining entries,
which the filter copies unchanged. -/
structure FMeta where
  filter : Option FilterMeta
  rest : List (String × String)
deriving DecidableEq

/-- A network as seen by `filter_network_by_bbox`. -/
structure FNetwork where
  stops : List FStop
  routes : List FRoute
  meta : FMeta
deriving DecidableEq

/-- Lines 123-133 of `server.py`, the per-stop test: both coordinates
coerce to numbers and lie inside the inclusive box; a record whose
coercion raises is skipped. -/
def stopInBBox (b : BBox) (s : FStop) : Bool :=
  match s.lat, s.lng with
  | some lat, some lng => inBBox b lat lng
  | _, _ => false

/-- The `filtered_stops` list of `filter_network_by_bbox`. -/
def keepStops (net : FNetwork) (b : BBox) : List FStop :=
  net.stops.filter (stopInBBox b)

/-- The `keep_stop_ids` set of `filter_network_by_bbox` (as a list with the
same membership). -/
def keepStopIds (net : FNetwork) (b : BBox) : List String :=
  (keepStops net b).map (fun s => s.id.toStr)

/-- Lines 148-154 of `server.py`, one iteration of the clipping loop: a
point whose coordinates coerce and lie inside the box is re-emitted as a
numeric `[plat, plng]` pair, any other point is skipped. -/
def clipPoint (b : BBox) (pt : Option ℚ × Option ℚ) : Option (Option ℚ × Option ℚ) :=
  match pt with
  | (some plat, some plng) =>
      if inBBox b plat plng then some (some plat, some plng) else none
  | _ => none

/-- Lines 146-154 of `server.py`: the `clipped` list for one shape. -/
def clipPoints (b : BBox) (ps : List (Option ℚ × Option ℚ)) : List (Option ℚ × Option ℚ) :=
  ps.filterMap (clipPoint b)

/-- Lines 145-157 of `server.py`: the shape a surviving route ends up with —
the clipped list when clipping is on, the shape is non-empty (Python
truthiness) and the clipped list has at least 2 points; the original shape
otherwise. -/
def clipShape (b : BBox) (clip_shapes : Bool) (shape : List (Option ℚ × Option ℚ)) :
    List (Option ℚ × Option ℚ) :=
  if clip_shapes && !shape.isEmpty then
    let clipped := clipPoints b shape
    if 2 ≤ clipped.length then clipped else shape
  else shape

/-- Lines 136-159 of `server.py`: the body of the route loop for one input
route; `none` when the route is dropped for having fewer than
`min_stops_in_area` retained stops. -/
def processRoute (b : BBox) (min_stops_in_area : ℕ) (clip_shapes : Bool)
    (keep : List String) (r : FRoute) : Option FRoute :=
  let stop_ids := r.stopIds.map Val.toStr
  if (stop_ids.filter (fun sid => keep.contains sid)).length < min_stops_in_area then none
  else some { r with stopIds := stop_ids.map Val.vs, shape := clipShape b clip_shapes r.shape }

/-- The network filter, `filter_network_by_bbox` of `server.py`. -/
def filter_network_by_bbox (net : FNetwork) (bbox : BBox)
    (min_stops_in_area : ℕ) (clip_shapes : Bool) : FNetwork :=
  { stops := keepStops net bbox
  , routes := net.routes.filterMap
      (processRoute bbox min_stops_in_area clip_shapes (keepStopIds net bbox))
  , meta := { net.meta with filter := some ⟨bbox, min_stops_in_area, clip_shapes⟩ } }

/-! Concrete sample feeds used to evaluate the definitions on closed
inputs. -/

/-- A concrete stand-in for the float haversine routine. -/
def hav0 : ℚ × ℚ → ℚ × ℚ → ℚ := fun _ _ => 0

/-- A sample bounding box around the region center. -/
def exBBox : BBox := ⟨52, -2, 54, 0⟩

/-- A stop inside `exBBox`. -/
def exStopA : StopRow := ⟨.vs "A", "stop a", 53, -1⟩

/-- A stop far outside `exBBox`. -/
def exStopB : StopRow := ⟨.vs "B", "stop b", 60, 10⟩

/-- Another stop far outside `exBBox`. -/
def exStopC : StopRow := ⟨.vs "C", "stop c", 61, 11⟩

/-- A sample route whose only trip serves only the far stop `B`. -/
def exRouteR : RouteRow := ⟨.vs "R", "r", "route r", ""⟩

/-- The only trip of route `R`. -/
def exTripT : TripRow := ⟨.vs "T", .vs "R", none⟩

/-- The single stop-time of trip `T`, at the far stop `B`. -/
def exStopTimeB : StopTimeRow := ⟨.vs "T", .vs "B", 1⟩

/-- A sample route with two trips. -/
def exRouteS : RouteRow := ⟨.vs "S", "s", "route s", ""⟩

/-- First trip of route `S` in table order. -/
def exTripU : TripRow := ⟨.vs "U", .vs "S", none⟩

/-- Second trip of route `S` in table order. -/
def exTripU2 : TripRow := ⟨.vs "U2", .vs "S", none⟩

/-- Stop-times for the trips of route `S`: trip `U` visits `C` then `A`
(rows out of `stop_sequence` order), trip `U2` visits only `A`. -/
def exStopTimesU : List StopTimeRow :=
  [⟨.vs "U", .vs "C", 2⟩, ⟨.vs "U", .vs "A", 1⟩, ⟨.vs "U2", .vs "A", 1⟩]

/-- Filter-stage sample stop inside `exBBox`. -/
def exFStop1 : FStop := ⟨.vs "S1", "s1", some 53, some (-1)⟩

/-- Filter-stage sample stop inside `exBBox`. -/
def exFStop2 : FStop := ⟨.vs "S2", "s2", some 52, some 0⟩

/-- Filter-stage sample stop inside `exBBox`. -/
def exFStop3 : FStop := ⟨.vs "S3", "s3", some 54, some 0⟩

/-- Filter-stage sample stop whose latitude does not coerce to a number. -/
def exFStopBad : FStop := ⟨.vs "S4", "s4", none, some 1⟩

/-- Filter-stage sample stop outside `exBBox`. -/
def exFStopFar : FStop := ⟨.vs "S5", "s5", some 10, some 10⟩

/-- Filter-stage sample route with three in-box stops, one far stop, and a
shape mixing in-box, out-of-box and malformed points. -/
def exFRoute1 : FRoute :=
  { id := "F1", shortName := "f1", longName := "route f1", color := "2E7D32"
  , stopIds := [.vs "S1", .vs "S2", .vs "S3", .vs "S5"]
  , shape := [(some 53, some (-1)), (some 52, some 0), (some 10, some 10), (none, some 1)]
  , headwayMins := none }

/-- Filter-stage sample route with a single in-box stop. -/
def exFRoute2 : FRoute :=
  { id := "F2", shortName := "f2", longName := "route f2", color := "FF0000"
  , stopIds := [.vs "S1", .vs "S5"]
  , shape := [(some 53, some (-1))]
  , headwayMins := none }

/-- Filter-stage sample network. -/
def exFNet : FNetwork :=
  ⟨[exFStop1, exFStop2, exFStop3, exFStopBad, exFStopFar], [exFRoute1, exFRoute2], ⟨none, []⟩⟩

/-! Theorems. -/

/-- C1: every stop in the output of `build_aston_network` satisfies the
selection predicate — inside the inclusive bbox when one is supplied, else
at distance (as computed by the builder's distance routine `hav`) at most
`buffer_meters / 1000` kilometers from the fixed center. -/
theorem build_stops_satisfy_region
    (stops : List StopRow) (routes : List RouteRow) (trips : List TripRow)
    (stop_times : List StopTimeRow) (shapes : List ShapeRow)
    (hav : ℚ × ℚ → ℚ × ℚ → ℚ) (buffer_meters : ℕ) (bbox : Option BBox)
    (s : Stop)
    (hs : s ∈ (build_aston_network stops routes trips stop_times shapes hav
      buffer_meters bbox).stops) :
    (∀ b, bbox = some b → inBBox b s.lat s.lng = true) ∧
    (bbox = none →
      hav (s.lat, s.lng) ASTON_CENTER ≤ (buffer_meters : ℚ) / 1000) := by
  simp only [build_aston_network, List.mem_map] at hs
  obtain ⟨r, hr, rfl⟩ := hs
  refine ⟨?_, ?_⟩
  · rintro b rfl
    simp only [stopsNear, List.mem_filter] at hr
    exact hr.2
  · rintro rfl
    simp only [stopsNear, List.mem_filter, decide_eq_true_eq] at hr
    exact hr.2

/-- Closed instance of `build_stops_satisfy_region` at a concrete feed: the
stop the builder emits for the sample bbox satisfies the bbox test. -/
theorem build_stops_satisfy_region_witness :
    inBBox exBBox (53 : ℚ) (-1) = true := by
  have h := build_stops_satisfy_region [exStopA, exStopB] [] [] [] [] hav0 1500
    (some exBBox) ⟨"A", "stop a", 53, -1⟩ (by decide)
  exact h.1 exBBox rfl

/-- C2 (failing input): `stop_id_set` is computed from `stops_near` before
the near filter reassigns `stops_near` (lines 41-42 of `build_network.py`),
so it holds all stop ids; at this feed the builder emits route `R` whose
`stopIds` (`["B"]`) share no element with the near-set (`["A"]`),
contradicting the source comment at line 106. -/
theorem build_route_without_near_stop_emitted :
    ((build_aston_network [exStopA, exStopB] [exRouteR] [exTripT] [exStopTimeB] []
        hav0 1500 (some exBBox)).routes.map BRoute.id = ["R"]) ∧
    ((stopsNear hav0 1500 (some exBBox) [exStopA, exStopB]).map
        (fun s => Val.toStr s.stop_id) = ["A"]) ∧
    ((build_aston_network [exStopA, exStopB] [exRouteR] [exTripT] [exStopTimeB] []
        hav0 1500 (some exBBox)).routes.map
      (fun r => r.stopIds.filter
        (fun sid => ((stopsNear hav0 1500 (some exBBox) [exStopA, exStopB]).map
          (fun s => Val.toStr s.stop_id)).contains sid)) = [[]]) := by
  decide

/-- C3 (failing input): for the same feed, trip `T` is a candidate trip
(it is the only row of `trips2`) although none of its stop-times — indeed no
stop-time of the feed — references a stop of the near-set, because the
candidate scan uses the prematurely computed all-stops `stop_id_set`. -/
theorem candidate_trip_without_near_stoptime :
    ((trips2 [exStopA, exStopB] [exTripT] [exStopTimeB]).map
        (fun t => Val.toStr t.trip_id) = ["T"]) ∧
    (([exStopTimeB] : List StopTimeRow).filter
        (fun st => ((stopsNear hav0 1500 (some exBBox) [exStopA, exStopB]).map
          (fun s => Val.toStr s.stop_id)).contains (Val.toStr st.stop_id)) = []) := by
  decide

/-- Finding in a filtered list is finding with the conjoined predicate. -/
theorem filter_find?_and {α : Type _} (l : List α) (q p : α → Bool) :
    (l.filter q).find? p = l.find? (fun a => q a && p a) := by
  induction l with
  | nil => rfl
  | cons x xs ih =>
    cases hq : q x <;> cases hp : p x <;>
      simp [List.filter_cons, hq, hp, List.find?_cons, ih]

/-- C4: every route the builder emits carries the complete ordered stop-id
sequence of its representative trip — a permutation of all stop-time rows
of that trip taken from the entire `stop_times` table, in ascending
`stop_sequence` order, with stop ids canonicalized to strings and not
trimmed to the region. -/
theorem route_stopIds_full_sorted_sequence
    (stops : List StopRow) (routes : List RouteRow) (trips : List TripRow)
    (stop_times : List StopTimeRow) (shapes : List ShapeRow)
    (hav : ℚ × ℚ → ℚ × ℚ → ℚ) (buffer_meters : ℕ) (bbox : Option BBox)
    (rt : BRoute)
    (hrt : rt ∈ (build_aston_network stops routes trips stop_times shapes hav
      buffer_meters bbox).routes) :
    ∃ tid : String, ∃ l : List StopTimeRow,
      routeToTrip (trips2 stops trips stop_times) rt.id = some tid ∧
      l.Perm (stop_times.filter (fun st => st.trip_id.toStr == tid)) ∧
      l.Pairwise (fun a b => a.stop_sequence ≤ b.stop_sequence) ∧
      rt.stopIds = l.map (fun st => st.stop_id.toStr) := by
  simp only [build_aston_network, List.mem_filterMap] at hrt
  obtain ⟨r, hr, hb⟩ := hrt
  simp only [buildRoute] at hb
  split at hb
  next => exact absurd hb (by simp)
  next tid hmc =>
    split at hb
    next hany =>
      injection hb with hb
      subst hb
      refine ⟨tid, sortedTripStopTimes stop_times tid, ?_, ?_, ?_, rfl⟩
      · simpa using hmc
      · exact List.perm_insertionSort _ _
      · haveI : IsTotal StopTimeRow (fun a b => a.stop_sequence ≤ b.stop_sequence) :=
          ⟨fun a b => Nat.le_total _ _⟩
        haveI : IsTrans StopTimeRow (fun a b => a.stop_sequence ≤ b.stop_sequence) :=
          ⟨fun _ _ _ => Nat.le_trans⟩
        exact List.sorted_insertionSort _ _
    next => exact absurd hb (by simp)

/-- Closed instance of `route_stopIds_full_sorted_sequence`: the builder's
output route for the sample two-trip feed, whose representative trip `U`
has its stop-time rows out of order in the table, carries `stopIds` equal
to the sorted full sequence of trip `U`. -/
theorem route_stopIds_full_sorted_sequence_witness :
    ∃ tid : String, ∃ l : List StopTimeRow,
      routeToTrip (trips2 [exStopA, exStopC] [exTripU, exTripU2] exStopTimesU)
          (BRoute.id ⟨"S", "s", "route s", "2E7D32", ["A", "C"], [], none⟩) = some tid ∧
      l.Perm (exStopTimesU.filter (fun st => st.trip_id.toStr == tid)) ∧
      l.Pairwise (fun a b => a.stop_sequence ≤ b.stop_sequence) ∧
      (BRoute.stopIds ⟨"S", "s", "route s", "2E7D32", ["A", "C"], [], none⟩) =
        l.map (fun st => st.stop_id.toStr) :=
  route_stopIds_full_sorted_sequence [exStopA, exStopC] [exRouteS] [exTripU, exTripU2]
    exStopTimesU [] hav0 1500 (some exBBox) ⟨"S", "s", "route s", "2E7D32", ["A", "C"], [], none⟩
    (by decide)

/-- C5: whenever the builder resolves a representative trip for a route id,
it is the trip id of the first candidate-trip row for that route in the
original row order of the `trips` table. -/
theorem representative_trip_first_encountered
    (stops : List StopRow) (trips : List TripRow) (stop_times : List StopTimeRow)
    (rid tid : String)
    (h : routeToTrip (trips2 stops trips stop_times) rid = some tid) :
    ∃ t : TripRow,
      trips.find? (fun t =>
        (candidateTripIds stops stop_times).contains t.trip_id.toStr &&
          (t.route_id.toStr == rid)) = some t ∧
      tid = t.trip_id.toStr := by
  unfold routeToTrip trips2 at h
  rw [filter_find?_and] at h
  rcases Option.map_eq_some'.mp h with ⟨t, ht, htid⟩
  exact ⟨t, ht, htid.symm⟩

/-- Closed instance of `representative_trip_first_encountered`: route `S`
has two candidate trips `U` and `U2`, and the representative is `U`, the
first one in the `trips` table order. -/
theorem representative_trip_first_encountered_witness :
    ∃ t : TripRow,
      [exTripU, exTripU2].find? (fun t =>
        (candidateTripIds [exStopA, exStopC] exStopTimesU).contains t.trip_id.toStr &&
          (t.route_id.toStr == "S")) = some t ∧
      "U" = t.trip_id.toStr :=
  representative_trip_first_encountered [exStopA, exStopC] [exTripU, exTripU2]
    exStopTimesU "S" "U" (by decide)

/-- Python `str` is the identity on values that are already strings. -/
@[simp] theorem toStr_vs (v : String) : Val.toStr (Val.vs v) = v := rfl

/-- String canonicalization twice is canonicalization once, element-wise. -/
theorem map_vs_toStr (l : List String) : (l.map Val.vs).map Val.toStr = l := by
  induction l <;> simp_all

/-- Filtering by the same predicate twice equals filtering once. -/
theorem filter_self_idem {α : Type _} (p : α → Bool) (l : List α) :
    (l.filter p).filter p = l.filter p := by
  induction l with
  | nil => rfl
  | cons x xs ih => cases hx : p x <;> simp [List.filter_cons, hx, ih]

/-- A filterMap whose outputs are its own fixed points is idempotent. -/
theorem filterMap_fixed {α : Type _} (f : α → Option α)
    (hf : ∀ a b, f a = some b → f b = some b) (l : List α) :
    (l.filterMap f).filterMap f = l.filterMap f := by
  induction l with
  | nil => rfl
  | cons x xs ih =>
    cases hx : f x with
    | none => simp [List.filterMap_cons, hx, ih]
    | some b => simp [List.filterMap_cons, hx, hf x b hx, ih]

/-- Every point the clipping loop emits is its own fixed point: it is
coercible and in-box, so clipping it again keeps it unchanged. -/
theorem clipPoint_fixed (b : BBox) (pt pt' : Option ℚ × Option ℚ)
    (h : clipPoint b pt = some pt') : clipPoint b pt' = some pt' := by
  rcases pt with ⟨plat, plng⟩
  rcases plat with _ | a <;> rcases plng with _ | c <;> simp [clipPoint] at h
  rcases h with ⟨hbox, rfl⟩
  simp [clipPoint, hbox]

/-- Clipping an already-clipped point list changes nothing. -/
theorem clipPoints_clipPoints (b : BBox) (ps : List (Option ℚ × Option ℚ)) :
    clipPoints b (clipPoints b ps) = clipPoints b ps :=
  filterMap_fixed _ (clipPoint_fixed b) ps

/-- The clipped list never has more points than the original. -/
theorem clipPoints_length_le (b : BBox) (ps : List (Option ℚ × Option ℚ)) :
    (clipPoints b ps).length ≤ ps.length :=
  List.length_filterMap_le _ _

/-- The shape a surviving route ends up with never has more points than the
original shape. -/
theorem clipShape_length_le (b : BBox) (c : Bool) (s : List (Option ℚ × Option ℚ)) :
    (clipShape b c s).length ≤ s.length := by
  simp only [clipShape]
  split
  · split
    · exact clipPoints_length_le b s
    · exact le_refl _
  · exact le_refl _

/-- The shape of a surviving route is the clipped list exactly when the
shape was non-empty and the clipped list has at least two points; otherwise
it is the original shape unchanged. -/
theorem clipShape_true_cases (b : BBox) (s : List (Option ℚ × Option ℚ)) :
    (clipShape b true s = clipPoints b s ∧ 2 ≤ (clipPoints b s).length ∧ s ≠ []) ∨
      clipShape b true s = s := by
  simp only [clipShape, Bool.true_and]
  by_cases hs : s.isEmpty
  · right
    rw [if_neg (by simp [hs])]
  · by_cases h2 : 2 ≤ (clipPoints b s).length
    · left
      rw [if_pos (by simp [hs]), if_pos h2]
      exact ⟨rfl, h2, by simpa using hs⟩
    · right
      rw [if_pos (by simp [hs]), if_neg h2]

/-- Computing the surviving shape twice with the same parameters is the same
as computing it once. -/
theorem clipShape_idem (b : BBox) (c : Bool) (s : List (Option ℚ × Option ℚ)) :
    clipShape b c (clipShape b c s) = clipShape b c s := by
  cases c with
  | false => simp [clipShape]
  | true =>
    rcases clipShape_true_cases b s with ⟨heq, h2, _⟩ | heq
    · rw [heq]
      have hne : ¬(clipPoints b s).isEmpty := by
        cases hcp : clipPoints b s with
        | nil => rw [hcp] at h2; simp at h2
        | cons x xs => simp
      simp only [clipShape, Bool.true_and]
      rw [if_pos (by simp [hne]), clipPoints_clipPoints, if_pos h2]
    · rw [heq, heq]

/-- A route record the filter emits is a fixed point of the route loop body
(with the same parameters and retained-id set). -/
theorem processRoute_fixed (b : BBox) (m : ℕ) (c : Bool) (keep : List String)
    (r rr : FRoute) (h : processRoute b m c keep r = some rr) :
    processRoute b m c keep rr = some rr := by
  simp only [processRoute] at h ⊢
  split at h
  next => exact absurd h (by simp)
  next hlen =>
    injection h with h
    subst h
    simp only [map_vs_toStr]
    rw [if_neg hlen, clipShape_idem]

/-- C6: a route of the input network survives `filter_network_by_bbox` if
and only if at least `min_stops_in_area` of its (canonicalized) `stopIds`
are in the retained-stop-id set; every surviving route's transformed record
is in the output, and every output route arises this way from some input
route. -/
theorem filter_route_survival_iff_min_stops
    (net : FNetwork) (bbox : BBox) (min_stops_in_area : ℕ) (clip_shapes : Bool)
    (r : FRoute) (hr : r ∈ net.routes) :
    ((processRoute bbox min_stops_in_area clip_shapes (keepStopIds net bbox) r).isSome ↔
      min_stops_in_area ≤ ((r.stopIds.map Val.toStr).filter
        (fun sid => (keepStopIds net bbox).contains sid)).length) ∧
    (∀ rr, processRoute bbox min_stops_in_area clip_shapes (keepStopIds net bbox) r = some rr →
      rr ∈ (filter_network_by_bbox net bbox min_stops_in_area clip_shapes).routes) ∧
    (∀ rr, rr ∈ (filter_network_by_bbox net bbox min_stops_in_area clip_shapes).routes →
      ∃ r', r' ∈ net.routes ∧
        processRoute bbox min_stops_in_area clip_shapes (keepStopIds net bbox) r' = some rr) := by
  refine ⟨?_, ?_, ?_⟩
  · simp only [processRoute]
    split
    next h => exact iff_of_false (by simp) (by omega)
    next h => exact iff_of_true (by simp) (by omega)
  · intro rr h
    simp only [filter_network_by_bbox, List.mem_filterMap]
    exact ⟨r, hr, h⟩
  · intro rr h
    simp only [filter_network_by_bbox, List.mem_filterMap] at h
    exact h

/-- Closed instance of `filter_route_survival_iff_min_stops`: the sample
route with exactly 3 retained stops appears in the filtered output. -/
theorem filter_route_survival_iff_min_stops_witness :
    ({ id := "F1", shortName := "f1", longName := "route f1", color := "2E7D32"
     , stopIds := [.vs "S1", .vs "S2", .vs "S3", .vs "S5"]
     , shape := [(some 53, some (-1)), (some 52, some 0)]
     , headwayMins := none } : FRoute) ∈
      (filter_network_by_bbox exFNet exBBox 3 true).routes :=
  (filter_route_survival_iff_min_stops exFNet exBBox 3 true exFRoute1 (by decide)).2.1
    _ (by decide)

/-- C7: `filter_network_by_bbox` is idempotent — re-filtering its own output
with the same bbox, threshold and clipping flag reproduces that output
exactly (the `meta.filter` record is overwritten with the same value). -/
theorem filter_bbox_idempotent
    (net : FNetwork) (bbox : BBox) (min_stops_in_area : ℕ) (clip_shapes : Bool) :
    filter_network_by_bbox (filter_network_by_bbox net bbox min_stops_in_area clip_shapes)
        bbox min_stops_in_area clip_shapes =
      filter_network_by_bbox net bbox min_stops_in_area clip_shapes := by
  have hstops : (net.stops.filter (stopInBBox bbox)).filter (stopInBBox bbox) =
      net.stops.filter (stopInBBox bbox) := filter_self_idem _ _
  simp only [filter_network_by_bbox, keepStops, keepStopIds]
  rw [hstops]
  rw [filterMap_fixed _ (processRoute_fixed bbox min_stops_in_area clip_shapes _)]

/-- C8: with clipping on, every route surviving `filter_network_by_bbox`
comes from an input route whose shape it never lengthens: its shape is the
bbox-clipped point list exactly when the original shape was non-empty and
that list has at least 2 points, and the original shape unchanged
otherwise. -/
theorem filter_shape_clipping_monotone
    (net : FNetwork) (bbox : BBox) (min_stops_in_area : ℕ) (rr : FRoute)
    (h : rr ∈ (filter_network_by_bbox net bbox min_stops_in_area true).routes) :
    ∃ r, r ∈ net.routes ∧
      rr.shape.length ≤ r.shape.length ∧
      ((rr.shape = clipPoints bbox r.shape ∧ 2 ≤ (clipPoints bbox r.shape).length ∧
          r.shape ≠ []) ∨
        rr.shape = r.shape) := by
  simp only [filter_network_by_bbox, List.mem_filterMap] at h
  obtain ⟨r, hr, hp⟩ := h
  have hsh : rr.shape = clipShape bbox true r.shape := by
    simp only [processRoute] at hp
    split at hp
    next => exact absurd hp (by simp)
    next =>
      injection hp with hp
      subst hp
      rfl
  refine ⟨r, hr, ?_, ?_⟩
  · rw [hsh]
    exact clipShape_length_le _ _ _
  · rw [hsh]
    rcases clipShape_true_cases bbox r.shape with ⟨heq, h2, hne⟩ | heq
    · exact Or.inl ⟨heq, h2, hne⟩
    · exact Or.inr heq

/-- Closed instance of `filter_shape_clipping_monotone`: the sample route's
output shape (2 points) comes from its 4-point input shape by clipping. -/
theorem filter_shape_clipping_monotone_witness :
    ∃ r, r ∈ exFNet.routes ∧
      ([(some 53, some (-1)), (some 52, some 0)] : List (Option ℚ × Option ℚ)).length ≤
        r.shape.length ∧
      ((([(some 53, some (-1)), (some 52, some 0)] : List (Option ℚ × Option ℚ)) =
            clipPoints exBBox r.shape ∧ 2 ≤ (clipPoints exBBox r.shape).length ∧
          r.shape ≠ []) ∨
        ([(some 53, some (-1)), (some 52, some 0)] : List (Option ℚ × Option ℚ)) = r.shape) :=
  filter_shape_clipping_monotone exFNet exBBox 3
    { id := "F1", shortName := "f1", longName := "route f1", color := "2E7D32"
    , stopIds := [.vs "S1", .vs "S2", .vs "S3", .vs "S5"]
    , shape := [(some 53, some (-1)), (some 52, some 0)]
    , headwayMins := none }
    (by decide)

/-- C9: `filter_network_by_bbox` (a total function — it returns normally on
every input) skips exactly the offending points: a stop with a
non-coercible coordinate never reaches the output stop list (hence
contributes nothing to the retained-stop-id set) while coercible in-box
stops always do, and a shape point with a non-coercible coordinate never
appears in a clipped list while coercible in-box points always do. -/
theorem filter_malformed_points_skipped
    (net : FNetwork) (bbox : BBox) (min_stops_in_area : ℕ) (clip_shapes : Bool) :
    (∀ s, s ∈ net.stops → (s.lat = none ∨ s.lng = none) →
      s ∉ (filter_network_by_bbox net bbox min_stops_in_area clip_shapes).stops) ∧
    (∀ s, s ∈ net.stops → ∀ a c, s.lat = some a → s.lng = some c →
      inBBox bbox a c = true →
      s ∈ (filter_network_by_bbox net bbox min_stops_in_area clip_shapes).stops) ∧
    (∀ ps (pt : Option ℚ × Option ℚ), pt.1 = none ∨ pt.2 = none →
      pt ∉ clipPoints bbox ps) ∧
    (∀ ps (a c : ℚ), (some a, some c) ∈ ps → inBBox bbox a c = true →
      (some a, some c) ∈ clipPoints bbox ps) := by
  refine ⟨?_, ?_, ?_, ?_⟩
  · intro s hs hmal hmem
    simp only [filter_network_by_bbox, keepStops, List.mem_filter] at hmem
    rcases hmem with ⟨-, hbox⟩
    obtain ⟨sid, sname, slat, slng⟩ := s
    rcases hmal with h | h <;> simp only at h <;> subst h <;>
      simp [stopInBBox] at hbox
  · intro s hs a c ha hc hbox
    simp only [filter_network_by_bbox, keepStops, List.mem_filter]
    obtain ⟨sid, sname, slat, slng⟩ := s
    simp only at ha hc
    subst ha
    subst hc
    exact ⟨hs, by simp [stopInBBox, hbox]⟩
  · intro ps pt hmal hmem
    simp only [clipPoints, List.mem_filterMap] at hmem
    obtain ⟨q, hq, hcl⟩ := hmem
    rcases q with ⟨ql, qr⟩
    rcases ql with _ | a <;> rcases qr with _ | c <;> simp [clipPoint] at hcl
    rcases hcl with ⟨hb, rfl⟩
    rcases hmal with h | h <;> simp at h
  · intro ps a c hmem hbox
    simp only [clipPoints, List.mem_filterMap]
    exact ⟨(some a, some c), hmem, by simp [clipPoint, hbox]⟩

/-- Closed instance of `filter_malformed_points_skipped`: the sample stop
with a non-coercible latitude is absent from the filtered stops, and the
sample malformed shape point is absent from the clipped shape. -/
theorem filter_malformed_points_skipped_witness :
    exFStopBad ∉ (filter_network_by_bbox exFNet exBBox 3 true).stops ∧
    ((none, some 1) : Option ℚ × Option ℚ) ∉ clipPoints exBBox exFRoute1.shape :=
  ⟨(filter_malformed_points_skipped exFNet exBBox 3 true).1 exFStopBad (by decide)
      (Or.inl rfl),
    (filter_malformed_points_skipped exFNet exBBox 3 true).2.2.1 exFRoute1.shape
      ((none, some 1) : Option ℚ × Option ℚ) (Or.inl rfl)⟩

/-- C10: every route surviving `filter_network_by_bbox` keeps all fields of
its input route except `shape` and `stopIds` unchanged, and its `stopIds`
is the element-wise string canonicalization of the input `stopIds` with no
element removed (so ids outside the bbox remain). -/
theorem filter_route_fields_preserved
    (net : FNetwork) (bbox : BBox) (min_stops_in_area : ℕ) (clip_shapes : Bool)
    (rr : FRoute)
    (h : rr ∈ (filter_network_by_bbox net bbox min_stops_in_area clip_shapes).routes) :
    ∃ r, r ∈ net.routes ∧
      rr.id = r.id ∧ rr.shortName = r.shortName ∧ rr.longName = r.longName ∧
      rr.color = r.color ∧ rr.headwayMins = r.headwayMins ∧
      rr.stopIds = r.stopIds.map (fun v => Val.vs v.toStr) ∧
      rr.stopIds.length = r.stopIds.length := by
  simp only [filter_network_by_bbox, List.mem_filterMap] at h
  obtain ⟨r, hr, hp⟩ := h
  simp only [processRoute] at hp
  split at hp
  next => exact absurd hp (by simp)
  next =>
    injection hp with hp
    subst hp
    refine ⟨r, hr, rfl, rfl, rfl, rfl, rfl, ?_, ?_⟩
    · rw [List.map_map]
      rfl
    · simp

/-- Closed instance of `filter_route_fields_preserved`: the sample output
route preserves every field of `exFRoute1` except `shape` and `stopIds`,
and keeps the out-of-box stop id `S5` in `stopIds`. -/
theorem filter_route_fields_preserved_witness :
    ∃ r, r ∈ exFNet.routes ∧
      "F1" = r.id ∧ "f1" = r.shortName ∧ "route f1" = r.longName ∧
      "2E7D32" = r.color ∧ (none : Option ℚ) = r.headwayMins ∧
      ([.vs "S1", .vs "S2", .vs "S3", .vs "S5"] : List Val) =
        r.stopIds.map (fun v => Val.vs v.toStr) ∧
      ([.vs "S1", .vs "S2", .vs "S3", .vs "S5"] : List Val).length = r.stopIds.length :=
  filter_route_fields_preserved exFNet exBBox 3 true
    { id := "F1", shortName := "f1", longName := "route f1", color := "2E7D32"
    , stopIds := [.vs "S1", .vs "S2", .vs "S3", .vs "S5"]
    , shape := [(some 53, some (-1)), (some 52, some 0)]
    , headwayMins := none }
    (by decide)
